import Mathlib

/-!
Shallow embedding of the `storage2` core: the transactional overlay
(`src/storage2/src/state/transaction.rs`) and the snapshot read path
(`src/storage2/src/snapshot.rs`).

Modelling conventions:
* Raw byte strings (`Vec<u8>`, `Box<[u8]>`) are `List Nat`.
* A `BTreeMap` is modelled extensionally by its lookup function; `insert`
  and `extend` are the corresponding pointwise operations.
* Fallible operations (`anyhow::Result`) return `Except`.  The error of
  `Transaction::commit` is modelled as its `anyhow` context chain,
  outermost context first.
* The base `State` type is declared in `storage2` outside the files under
  verification; `Transaction` only touches its two uncommitted-change
  buffers (via `commit`) and its two read methods, so `State` is modelled
  as exactly those four components, with the reads kept abstract.
-/

/-- Raw byte strings (`Vec<u8>` / `Box<[u8]>`). -/
abbrev Bytes := List Nat

/-- The byte string backing a Rust `String` key (one entry per character;
injective, and for the concrete keys used below it coincides with UTF-8). -/
def strBytes (s : String) : Bytes := s.data.map Char.toNat

/-- `BTreeMap α β`, modelled extensionally by its lookup function. -/
abbrev BMap (α β : Type) : Type := α → Option β

/-- `BTreeMap::insert`: overwrite the (unique) slot for `k`. -/
def BMap.insert {α β : Type} [DecidableEq α] (m : BMap α β) (k : α) (v : β) :
    BMap α β :=
  fun q => if q = k then some v else m q

/-- `BTreeMap::extend`: entries of `other` win on key collision. -/
def BMap.extend {α β : Type} (m other : BMap α β) : BMap α β :=
  fun q =>
    match other q with
    | some v => some v
    | none => m q

/-- `BTreeMap::new`. -/
def BMap.empty {α β : Type} : BMap α β := fun _ => none

/-- The base `State` a `Transaction` forks: its own uncommitted-change
buffers (`unwritten_changes`, `nonconsensus_changes`, both
`BTreeMap<_, Option<Vec<u8>>>` where `none` is a tombstone), plus its
`StateRead` methods `get_raw` / `get_nonconsensus`.  The `State`
implementation lives outside the verified sources, so its reads are
arbitrary functions: every theorem below holds for every base read. -/
structure State where
  unwritten_changes : BMap String (Option Bytes)
  nonconsensus_changes : BMap Bytes (Option Bytes)
  get_raw : String → Except String (Option Bytes)
  get_nonconsensus : Bytes → Except String (Option Bytes)

/-- `Transaction<'a>`: a RYW cache over a `State`.  The `state` field
models the exclusive `&'a mut State` borrow; operations that in Rust
mutate through it instead return the updated copy. -/
structure Transaction where
  unwritten_changes : BMap String (Option Bytes)
  nonconsensus_changes : BMap Bytes (Option Bytes)
  state : State
  failed : Bool
  failure_reason : String

/-- `Transaction::new`. -/
def Transaction.new (state : State) : Transaction :=
  { state := state
    unwritten_changes := BMap.empty
    nonconsensus_changes := BMap.empty
    failed := false
    failure_reason := "" }

/-- `Transaction::fail`. -/
def Transaction.fail (tx : Transaction) (reason : String) : Transaction :=
  { tx with failed := true, failure_reason := reason }

/-- `Transaction::commit`.  Consumes the transaction (nothing returns a
`Transaction`); the second component is the final contents of the borrowed
base `State`.  On failure the error chain is
`anyhow!("transaction failed").context(failure_reason)`, i.e. the reason
as outermost context over the message `transaction failed`, and the base
is returned untouched. -/
def Transaction.commit (tx : Transaction) : Except (List String) Unit × State :=
  if tx.failed then
    (.error [tx.failure_reason, "transaction failed"], tx.state)
  else
    (.ok (),
     { tx.state with
         unwritten_changes :=
           tx.state.unwritten_changes.extend tx.unwritten_changes
         nonconsensus_changes :=
           tx.state.nonconsensus_changes.extend tx.nonconsensus_changes })

/-- `StateWrite::put_raw` for `Transaction`. -/
def Transaction.put_raw (tx : Transaction) (key : String) (value : Bytes) :
    Transaction :=
  { tx with unwritten_changes := tx.unwritten_changes.insert key (some value) }

/-- `StateWrite::delete` for `Transaction`: stage a tombstone. -/
def Transaction.delete (tx : Transaction) (key : String) : Transaction :=
  { tx with unwritten_changes := tx.unwritten_changes.insert key none }

/-- `StateWrite::delete_nonconsensus` for `Transaction`. -/
def Transaction.delete_nonconsensus (tx : Transaction) (key : Bytes) :
    Transaction :=
  { tx with nonconsensus_changes := tx.nonconsensus_changes.insert key none }

/-- `StateWrite::put_nonconsensus` for `Transaction`. -/
def Transaction.put_nonconsensus (tx : Transaction) (key : Bytes) (value : Bytes) :
    Transaction :=
  { tx with nonconsensus_changes := tx.nonconsensus_changes.insert key (some value) }

/-- `StateRead::get_raw` for `Transaction`: the pending buffer wins
(including a tombstone, surfaced as `none`); otherwise delegate to the
base state's read. -/
def Transaction.get_raw (tx : Transaction) (key : String) :
    Except String (Option Bytes) :=
  match tx.unwritten_changes key with
  | some v => .ok v
  | none => tx.state.get_raw key

/-- `StateRead::get_nonconsensus` for `Transaction`. -/
def Transaction.get_nonconsensus (tx : Transaction) (key : Bytes) :
    Except String (Option Bytes) :=
  match tx.nonconsensus_changes key with
  | some v => .ok v
  | none => tx.state.get_nonconsensus key

/-- A concrete base state used by the witnesses: empty buffers, reads that
always succeed with `none`. -/
def exState : State :=
  { unwritten_changes := BMap.empty
    nonconsensus_changes := BMap.empty
    get_raw := fun _ => .ok none
    get_nonconsensus := fun _ => .ok none }

/-- The data visible through a pinned RocksDB snapshot, as the two column
families the read path touches: `jmt` (authenticated data) as a
point-lookup function over raw byte keys, and `jmt_keys` (the key-preimage
index) as the ordered sequence of items its iterator yields, where an item
may be an I/O or decode error — covering both `i?` and
`std::str::from_utf8(..)?` in the scan loop. -/
structure Snapshot where
  jmt : Bytes → Option Bytes
  jmt_keys : List (Except String (String × Bytes))

/-- `Snapshot::get_raw`: a direct lookup of the raw key-string bytes in
the `jmt` column family (`inner.snapshot.get_cf(jmt_cf, key)`); absent on
miss. -/
def Snapshot.get_raw (s : Snapshot) (key : String) :
    Except String (Option Bytes) :=
  .ok (s.jmt (strBytes key))

/-- How the `prefix_raw` producer closure ended. -/
inductive ScanEnd
  | finished
  | errored (e : String)
  | panicked (msg : String)
deriving DecidableEq, Repr

/-- Message of the `.expect(..)` in the scan loop. -/
def panicMsg : String := "keys in jmt_keys should have a corresponding value in jmt"

/-- The `prefix_raw` producer loop over the (already prefix-ranged)
iterator items: for each `Ok` preimage item it dereferences the key hash
into the `jmt` column family and sends `(key, value)` on the channel; an
item error aborts the closure via `?`; a preimage whose hash has no `jmt`
value panics via `.expect(..)`.  Returns the items actually sent and how
the closure ended. -/
def scanGo (jmt : Bytes → Option Bytes) :
    List (Except String (String × Bytes)) →
      List (Except String (String × Bytes)) × ScanEnd
  | [] => ([], .finished)
  | .error e :: _ => ([], .errored e)
  | .ok (k, h) :: rest =>
    match jmt h with
    | none => ([], .panicked panicMsg)
    | some v =>
      let r := scanGo jmt rest
      (.ok (k, v) :: r.1, r.2)

/-- The iterator items that fall inside
`ReadOptions::set_iterate_range(PrefixRange(pfx))`. -/
def rangeItems (s : Snapshot) (pfx : String) :
    List (Except String (String × Bytes)) :=
  s.jmt_keys.filter fun e =>
    match e with
    | .ok (k, _) => (strBytes pfx).isPrefixOf (strBytes k)
    | .error _ => true

/-- `Snapshot::prefix_raw`: everything the returned stream yields.  The
producer runs detached and the stream ends when the channel sender is
dropped; the closure's own `Result` return value is discarded (its
`JoinHandle` is never awaited), so the stream consists exactly of the sent
items. -/
def Snapshot.prefix_raw (s : Snapshot) (pfx : String) :
    List (Except String (String × Bytes)) :=
  (scanGo s.jmt (rangeItems s pfx)).1

/-- Every `Ok` item of the preimage index names a hash that has a value in
the `jmt` column family (the consistency invariant the scan's
`.expect(..)` asserts). -/
def jmtKeysConsistent (jmt : Bytes → Option Bytes)
    (entries : List (Except String (String × Bytes))) : Bool :=
  entries.all fun e =>
    match e with
    | .ok (_, h) => (jmt h).isSome
    | .error _ => true

/-- Modelled from the spec: the durable write path that populates the
column families is not among the verified sources (only the read path is),
so the store layout it establishes is taken from the spec's data model —
the authenticated store is "keyed and addressed by this hash, not the
original string", the key hash is fixed-width, and every preimage-index
entry maps an original key string to its key hash, which has a
corresponding value in the authenticated store. -/
def specLayout (keyHash : String → Bytes) (s : Snapshot) : Prop :=
  (∀ k, (keyHash k).length = 32) ∧
  ∀ e ∈ s.jmt_keys, ∀ k h, e = Except.ok (k, h) →
    h = keyHash k ∧ (s.jmt h).isSome

/-- A jmt column family for the C6 witness: only the hash `[1]` has a
value. -/
def exJmt : Bytes → Option Bytes := fun b => if b = [1] then some [5] else none

/-- A snapshot whose preimage-index iterator yields one valid entry and
then fails (mid-scan I/O or decode error). -/
def c5snap : Snapshot :=
  { jmt := fun b => if b = [7] then some [42] else none
    jmt_keys := [Except.ok ("a", [7]), Except.error "mid-scan disk error"] }

/-- A 32-byte key hash for the C7 store. -/
def c7hash : Bytes := List.replicate 32 0

/-- A snapshot laid out as the spec prescribes: the preimage index maps
the key string `"a"` to its fixed-width hash, and the authenticated value
sits in the `jmt` column family under that hash (and under nothing
else). -/
def c7snap : Snapshot :=
  { jmt := fun b => if b = c7hash then some [1, 2, 3] else none
    jmt_keys := [Except.ok ("a", c7hash)] }

/-- C1: staging `put_raw(k, v)` on an open transaction and then
`get_raw(k)` on that same transaction returns `v`, regardless of what the
base state holds for `k` (the statement quantifies over every transaction,
hence over every base state and base read). -/
theorem put_then_get_raw (tx : Transaction) (k : String) (v : Bytes) :
    (tx.put_raw k v).get_raw k = .ok (some v) := by
  simp [Transaction.put_raw, Transaction.get_raw, BMap.insert]

/-- C2: staging `delete(k)` and then `get_raw(k)` on that transaction
returns absent (`Ok none`), even if the base state holds a value for `k`:
the pending tombstone is surfaced as absence and the base read is never
consulted. -/
theorem delete_then_get_raw (tx : Transaction) (k : String) :
    (tx.delete k).get_raw k = .ok none := by
  simp [Transaction.delete, Transaction.get_raw, BMap.insert]

/-- C9: last-write-wins within one transaction — `put_raw(k, v1)` then
`put_raw(k, v2)` makes `get_raw(k)` return `v2`, and a subsequent
`delete(k)` makes it return absent; the single pending slot for `k` holds
exactly the latest mutation. -/
theorem last_write_wins (tx : Transaction) (k : String) (v1 v2 : Bytes) :
    ((tx.put_raw k v1).put_raw k v2).get_raw k = .ok (some v2) ∧
    (((tx.put_raw k v1).put_raw k v2).delete k).get_raw k = .ok none ∧
    ((tx.put_raw k v1).put_raw k v2).unwritten_changes k = some (some v2) := by
  refine ⟨?_, ?_, ?_⟩ <;>
    simp [Transaction.put_raw, Transaction.delete, Transaction.get_raw,
      BMap.insert]

/-- C8: `put_raw`, `delete`, `put_nonconsensus` and `delete_nonconsensus`
mutate only the transaction's own pending maps, never the base state: a
transaction dropped without commit leaves the base's uncommitted-change
buffers unchanged for every key it touched. -/
theorem writes_leave_base_untouched (tx : Transaction) (k : String)
    (v : Bytes) (kb vb : Bytes) :
    (tx.put_raw k v).state = tx.state ∧
    (tx.delete k).state = tx.state ∧
    (tx.put_nonconsensus kb vb).state = tx.state ∧
    (tx.delete_nonconsensus kb).state = tx.state :=
  ⟨rfl, rfl, rfl, rfl⟩

/-- C3: a transaction marked failed with reason `r` refuses to commit —
the error chain carries `r` (as the outermost context), and the base
state, buffers included, is returned unchanged. -/
theorem commit_refused (tx : Transaction) (r : String)
    (hf : tx.failed = true) (hr : tx.failure_reason = r) :
    tx.commit.1 = .error [r, "transaction failed"] ∧
    r ∈ [r, "transaction failed"] ∧
    tx.commit.2 = tx.state := by
  simp [Transaction.commit, hf, hr]

/-- Witness for C3 at a concrete failed transaction. -/
theorem commit_refused_witness :
    ((Transaction.new exState).fail "R").commit.1 =
      .error ["R", "transaction failed"] ∧
    "R" ∈ ["R", "transaction failed"] ∧
    ((Transaction.new exState).fail "R").commit.2 =
      ((Transaction.new exState).fail "R").state :=
  commit_refused ((Transaction.new exState).fail "R") "R" rfl rfl

/-- C4: a transaction not marked failed commits successfully, extending
the base state's uncommitted-change buffers with the transaction's pending
consensus and non-consensus entries, the transaction's entry winning on
any key collision with what the base already had staged; `commit` takes
the transaction by value (nothing returns a `Transaction`), so it cannot
be used afterwards. -/
theorem commit_success (tx : Transaction) (k : String) (kb : Bytes)
    (h : tx.failed = false) :
    tx.commit.1 = .ok () ∧
    tx.commit.2.unwritten_changes k =
      (match tx.unwritten_changes k with
       | some v => some v
       | none => tx.state.unwritten_changes k) ∧
    tx.commit.2.nonconsensus_changes kb =
      (match tx.nonconsensus_changes kb with
       | some v => some v
       | none => tx.state.nonconsensus_changes kb) := by
  refine ⟨by simp [Transaction.commit, h], ?_, ?_⟩
  · cases hc : tx.unwritten_changes k <;>
      simp [Transaction.commit, h, BMap.extend, hc]
  · cases hc : tx.nonconsensus_changes kb <;>
      simp [Transaction.commit, h, BMap.extend, hc]

/-- Witness for C4 at a concrete open transaction. -/
theorem commit_success_witness :
    ((Transaction.new exState).put_raw "a" [1]).commit.1 = .ok () ∧
    ((Transaction.new exState).put_raw "a" [1]).commit.2.unwritten_changes "a" =
      (match ((Transaction.new exState).put_raw "a" [1]).unwritten_changes "a" with
       | some v => some v
       | none =>
         ((Transaction.new exState).put_raw "a" [1]).state.unwritten_changes "a") ∧
    ((Transaction.new exState).put_raw "a" [1]).commit.2.nonconsensus_changes [0] =
      (match ((Transaction.new exState).put_raw "a" [1]).nonconsensus_changes [0] with
       | some v => some v
       | none =>
         ((Transaction.new exState).put_raw "a" [1]).state.nonconsensus_changes [0]) :=
  commit_success ((Transaction.new exState).put_raw "a" [1]) "a" [0] rfl

/-- C10: a successful commit leaves every base-staged entry whose key the
transaction did not touch exactly as it was: for any key absent from the
transaction's pending maps, the base buffers read the same before and
after the commit. -/
theorem commit_frame (tx : Transaction) (k : String) (kb : Bytes)
    (h : tx.failed = false)
    (hk : tx.unwritten_changes k = none)
    (hkb : tx.nonconsensus_changes kb = none) :
    tx.commit.2.unwritten_changes k = tx.state.unwritten_changes k ∧
    tx.commit.2.nonconsensus_changes kb = tx.state.nonconsensus_changes kb := by
  refine ⟨?_, ?_⟩ <;> simp [Transaction.commit, h, BMap.extend, hk, hkb]

/-- Witness for C10: committing a transaction that touched only key `"a"`
leaves the base's entries at `"b"` and `[0]` unchanged. -/
theorem commit_frame_witness :
    ((Transaction.new exState).put_raw "a" [1]).commit.2.unwritten_changes "b" =
      ((Transaction.new exState).put_raw "a" [1]).state.unwritten_changes "b" ∧
    ((Transaction.new exState).put_raw "a" [1]).commit.2.nonconsensus_changes [0] =
      ((Transaction.new exState).put_raw "a" [1]).state.nonconsensus_changes [0] :=
  commit_frame ((Transaction.new exState).put_raw "a" [1]) "b" [0] rfl
    (by decide) (by decide)

/-- C6: a preimage entry whose hash has no value in the `jmt` column
family makes the scan panic via `.expect(..)` — nothing is emitted for it
and the closure's end is the panic, not a recoverable error; and whenever
every scanned preimage entry has a corresponding authenticated value, the
panic branch is unreachable. -/
theorem missing_value_panics (jmt : Bytes → Option Bytes) (k : String)
    (h : Bytes) (rest entries : List (Except String (String × Bytes)))
    (hmiss : jmt h = none)
    (hcons : jmtKeysConsistent jmt entries = true) :
    scanGo jmt (.ok (k, h) :: rest) = ([], .panicked panicMsg) ∧
    ∀ m, (scanGo jmt entries).2 ≠ .panicked m := by
  constructor
  · simp [scanGo, hmiss]
  · induction entries with
    | nil => simp [scanGo]
    | cons e rest ih =>
      match e with
      | .error e' => simp [scanGo]
      | .ok (k', h') =>
        simp only [jmtKeysConsistent, List.all_cons, Bool.and_eq_true] at hcons
        obtain ⟨hhead, htail⟩ := hcons
        obtain ⟨v, hv⟩ := Option.isSome_iff_exists.mp hhead
        intro m
        simpa [scanGo, hv] using ih htail m

/-- Witness for C6: the hash `[2]` is missing from `exJmt`, so scanning
its entry panics; the singleton scan over the consistent entry `[1]` never
reaches the panic branch. -/
theorem missing_value_panics_witness :
    scanGo exJmt (.ok ("a", [2]) :: []) = ([], .panicked panicMsg) ∧
    ∀ m, (scanGo exJmt [Except.ok ("b", [1])]).2 ≠ .panicked m :=
  missing_value_panics exJmt "a" [2] [] [Except.ok ("b", [1])]
    (by decide) (by decide)

/-- C5, evaluated at the failing input: the scan over `c5snap` with
`prefix_raw("a")` hits a mid-scan error after its first item — the
producer closure ends in that error, yet the stream the caller sees holds
only the one `Ok` item and no error element: the error is discarded with
the unawaited `JoinHandle` and the stream is silently truncated. -/
theorem prefix_raw_error_dropped :
    c5snap.prefix_raw "a" = [Except.ok ("a", [42])] ∧
    (scanGo c5snap.jmt (rangeItems c5snap "a")).2 =
      .errored "mid-scan disk error" := by
  constructor <;> rfl

/-- C7, evaluated at the failing input: on the spec-prescribed store
layout `c7snap` (hash-addressed authenticated entries, consistent preimage
index), `prefix_raw("a")` emits `("a", [1, 2, 3])` by dereferencing the
key hash, but `get_raw("a")` looks up the raw string bytes in the `jmt`
column family and returns absent — point lookups and prefix scans
disagree. -/
theorem prefix_point_disagree :
    jmtKeysConsistent c7snap.jmt c7snap.jmt_keys = true ∧
    specLayout (fun _ => c7hash) c7snap ∧
    c7snap.prefix_raw "a" = [Except.ok ("a", [1, 2, 3])] ∧
    c7snap.get_raw "a" = .ok none := by
  refine ⟨by decide, ⟨?_, ?_⟩, ?_, ?_⟩
  · intro k
    rfl
  · intro e he k h hh
    simp only [c7snap, List.mem_singleton] at he
    subst he
    injection hh with h1
    injection h1 with hk hv
    subst hk
    subst hv
    exact ⟨rfl, by decide⟩
  · rfl
  · rfl
